import Mathlib

/-!
Verification of the Majima-AI repository's two executable artifacts:
the intro-sequence controller (src/static/js/intro.js) and the Git
bootstrap script (src/init_git.bat), shallowly embedded in Lean 4.
-/

namespace MajimaAI

/-! ## Intro-sequence controller (src/static/js/intro.js)

The script registers a DOMContentLoaded handler, waits `introDuration`
milliseconds, adds the class "fade-out" to `document.body`, then waits
800 milliseconds and sets `window.location.href` to "/login".
-/

/-- `const introDuration = 4500;` -/
def introDuration : Nat := 4500

/-- Delay of the nested `setTimeout` (comment: exit animation, 0.8s). -/
def exitAnimMs : Nat := 800

/-- Comment-documented tuning value: Title (1.5s). -/
def titleAnimMs : Nat := 1500

/-- Comment-documented tuning value: Subtitle Delay (1.2s). -/
def subtitleDelayMs : Nat := 1200

/-- Comment-documented tuning value: Subtitle Animation (1s). -/
def subtitleAnimMs : Nat := 1000

/-- Comment-documented tuning value: Pause (1.5s). -/
def introPauseMs : Nat := 1500

/-- Navigation target of `window.location.href = '/login';`. -/
def loginPath : String := "/login"

/-- Observable effects of the intro script on the hosting page. -/
inductive Event where
  | addClass (cls : String)
  | navigate (url : String)
deriving DecidableEq, Repr

/-- Scheduling environment: the event loop may deliver each timer
callback `lag` milliseconds after its due time (never earlier). -/
structure Sched where
  lag1 : Nat
  lag2 : Nat
deriving DecidableEq, Repr

/-- Time at which the outer `setTimeout` callback fires, given the
trigger (DOMContentLoaded) time `t0`: due at `t0 + introDuration`,
delivered `lag1` later. -/
def fire1 (t0 : Nat) (s : Sched) : Nat := t0 + introDuration + s.lag1

/-- Time at which the inner `setTimeout` callback fires.  The inner
timer is created inside the outer callback, so its due time is
relative to `fire1`, reflecting the nested structure of the source. -/
def fire2 (t0 : Nat) (s : Sched) : Nat := fire1 t0 s + exitAnimMs + s.lag2

/-- Timed event trace of one execution of the intro controller. -/
def introEvents (t0 : Nat) (s : Sched) : List (Nat × Event) :=
  [(fire1 t0 s, Event.addClass "fade-out"),
   (fire2 t0 s, Event.navigate loginPath)]

/-- Recognises the navigation effect. -/
def isNav : Event → Bool
  | Event.navigate _ => true
  | Event.addClass _ => false

/-- The page state the script can touch: the body's class list. -/
structure Dom where
  bodyClasses : List String
deriving DecidableEq, Repr

/-- `classList.add` appends the class unless it is already present. -/
def classListAdd (d : Dom) (c : String) : Dom :=
  if c ∈ d.bodyClasses then d else { bodyClasses := d.bodyClasses ++ [c] }

/-- Effect of one event on the DOM; navigation does not touch classes. -/
def applyEvent (d : Dom) : Event → Dom
  | Event.addClass c => classListAdd d c
  | Event.navigate _ => d

/-- Run a list of events over the DOM. -/
def runDom (d : Dom) (es : List Event) : Dom := es.foldl applyEvent d

/-! ## Repository bootstrap script (src/init_git.bat) -/

/-- Actions the batch script can perform, in the order executed. -/
inductive Act where
  | echoOff
  | echoMsg (s : String)
  | echoBlank
  | gitInit
  | gitAdd
  | gitCommit (msg : String)
  | pause
  | exitScript (code : Option Nat)
deriving DecidableEq, Repr

/-- Exit statuses (`%errorlevel%`) the external `git` commands would
report; the script only ever inspects the first. -/
structure BatEnv where
  initErrorlevel : Nat
  addErrorlevel : Nat
  commitErrorlevel : Nat
deriving DecidableEq, Repr

/-- `git commit -m "Initial commit for Majima AI"` -/
def commitMessage : String := "Initial commit for Majima AI"

/-- Trace of the failure branch: `if %errorlevel% neq 0 ( ... )`. -/
def batFailTail : List Act :=
  [Act.echoMsg "Error: Git is still not recognized. Please restart VS Code/Terminal and try again.",
   Act.pause,
   Act.exitScript none]

/-- Trace of the remainder of the script when the check passes. -/
def batSuccessTail : List Act :=
  [Act.echoMsg "Adding files...",
   Act.gitAdd,
   Act.gitCommit commitMessage,
   Act.echoBlank,
   Act.echoMsg "Git repository initialized successfully!",
   Act.echoBlank,
   Act.echoMsg "Next steps:",
   Act.echoMsg "1. Create a new repository on GitHub.com",
   Act.echoMsg "2. Run the commands shown on GitHub, for example:",
   Act.echoMsg "   git remote add origin https://github.com/YOUR_USERNAME/YOUR_REPO_NAME.git",
   Act.echoMsg "   git branch -M main",
   Act.echoMsg "   git push -u origin main",
   Act.echoBlank,
   Act.pause]

/-- Full action trace of `init_git.bat` as a function of the exit
statuses the `git` commands report.  `git init` runs, then
`if %errorlevel% neq 0` either takes the early-exit block or the
script falls through to the rest; the statuses of `git add` and
`git commit` are never consulted. -/
def initGitBat (env : BatEnv) : List Act :=
  [Act.echoOff,
   Act.echoMsg "Initializing Git Repository...",
   Act.gitInit] ++
  (if env.initErrorlevel ≠ 0 then batFailTail else batSuccessTail)

/-! ## Theorems -/

/-- C1 (counterexample): the claim that the intro duration constant
(4500 ms) equals the sum of the four comment-documented tuning values
is false: 1500 + 1200 + 1000 + 1500 = 5200 ≠ 4500. -/
theorem introDuration_ne_documented_sum :
    ¬ (titleAnimMs + subtitleDelayMs + subtitleAnimMs + introPauseMs = introDuration) := by
  decide

/-- C1 (amended): the constant used by the controller is 4500 ms, while
the four tuning values documented in the adjacent comment (1500, 1200,
1000, 1500 ms) sum to 5200 ms; the constant therefore differs from the
documented sum by 700 ms. -/
theorem introDuration_vs_documented_sum :
    introDuration = 4500 ∧
    titleAnimMs + subtitleDelayMs + subtitleAnimMs + introPauseMs = 5200 ∧
    titleAnimMs + subtitleDelayMs + subtitleAnimMs + introPauseMs ≠ introDuration := by
  decide

/-- C2: in every execution (any trigger time `t0`, any scheduling lags),
the class addition fires no earlier than `t0 + introDuration`, the
navigation fires no earlier than `t0 + introDuration + exitAnimMs`, and
the exit wait fully elapses after the first callback before navigation
(`fire2 ≥ fire1 + exitAnimMs`); the trace is exactly these two events,
in that order. -/
theorem intro_sequential_timing (t0 : Nat) (s : Sched) :
    introEvents t0 s =
      [(fire1 t0 s, Event.addClass "fade-out"), (fire2 t0 s, Event.navigate loginPath)] ∧
    t0 + introDuration ≤ fire1 t0 s ∧
    t0 + (introDuration + exitAnimMs) ≤ fire2 t0 s ∧
    fire1 t0 s + exitAnimMs ≤ fire2 t0 s := by
  refine ⟨rfl, ?_, ?_, ?_⟩ <;> (simp only [fire1, fire2]; omega)

/-- C4: in every execution of the intro controller, the navigation
events in the trace are exactly one, whose target is the literal path
"/login"; this holds unconditionally, for every scheduling environment. -/
theorem intro_navigates_once_to_login (t0 : Nat) (s : Sched) :
    (introEvents t0 s).filter (fun p => isNav p.2) =
      [(fire2 t0 s, Event.navigate loginPath)] ∧
    loginPath = "/login" := by
  exact ⟨rfl, rfl⟩

/-- C8: two independent loads of the page, triggered at arbitrary times
`t0` and `t1`, produce the same timeline relative to their triggers —
same events in the same order with the same delays — and the event
sequence is the fixed two-step sequence; the controller is a pure
function of its trigger time and scheduling lags, so no state persists
between loads. -/
theorem intro_two_loads_same_timeline (t0 t1 : Nat) (s : Sched) :
    (introEvents t0 s).map (fun p => (p.1 - t0, p.2)) =
      (introEvents t1 s).map (fun p => (p.1 - t1, p.2)) ∧
    (introEvents t0 s).map Prod.snd =
      [Event.addClass "fade-out", Event.navigate loginPath] := by
  refine ⟨?_, rfl⟩
  simp only [introEvents, List.map, fire1, fire2, Prod.mk.injEq, List.cons.injEq,
    and_true, true_and]
  omega

/-- C10: running the intro controller's effects over any initial body
class list results in exactly the addition of the class "fade-out"
(appended if absent, left alone if present); no class is ever removed,
and in particular "fade-out" is present afterwards. -/
theorem intro_fadeOut_added_never_removed (d : Dom) (t0 : Nat) (s : Sched) :
    (runDom d ((introEvents t0 s).map Prod.snd)).bodyClasses =
      (if "fade-out" ∈ d.bodyClasses then d.bodyClasses
       else d.bodyClasses ++ ["fade-out"]) ∧
    "fade-out" ∈ (runDom d ((introEvents t0 s).map Prod.snd)).bodyClasses ∧
    ∀ c ∈ d.bodyClasses, c ∈ (runDom d ((introEvents t0 s).map Prod.snd)).bodyClasses := by
  refine ⟨?_, ?_, ?_⟩ <;>
    simp only [introEvents, List.map, runDom, List.foldl, applyEvent, classListAdd] <;>
    split <;> simp_all

/-- C3: the bootstrap script aborts on initialization failure — if
`git init` reports a nonzero status the trace is exactly the diagnostic
message, a pause, and the early exit, with no later step — and each of
staging, committing, and the follow-up instructions appears in the
trace if and only if initialization succeeded. -/
theorem bat_steps_iff_init_succeeded (env : BatEnv) :
    (env.initErrorlevel ≠ 0 →
      initGitBat env =
        [Act.echoOff, Act.echoMsg "Initializing Git Repository...", Act.gitInit] ++
          batFailTail) ∧
    (Act.gitAdd ∈ initGitBat env ↔ env.initErrorlevel = 0) ∧
    ((∃ m, Act.gitCommit m ∈ initGitBat env) ↔ env.initErrorlevel = 0) ∧
    (Act.echoMsg "Next steps:" ∈ initGitBat env ↔ env.initErrorlevel = 0) := by
  by_cases h : env.initErrorlevel = 0 <;>
    simp [initGitBat, h, batFailTail, batSuccessTail]

/-- C3 witness: at `initErrorlevel = 1` the script takes the abort
branch. -/
theorem bat_steps_iff_init_succeeded_witness :
    initGitBat ⟨1, 0, 0⟩ =
      [Act.echoOff, Act.echoMsg "Initializing Git Repository...", Act.gitInit] ++
        batFailTail :=
  (bat_steps_iff_init_succeeded ⟨1, 0, 0⟩).1 (by decide)

/-- C5: when initialization fails, the script pauses for a keypress and
returns via `exit /b` with no explicit status code; no `exit` carrying
an explicit code occurs anywhere in the trace. -/
theorem bat_failure_pause_plain_return (env : BatEnv) (h : env.initErrorlevel ≠ 0) :
    Act.pause ∈ initGitBat env ∧
    Act.exitScript none ∈ initGitBat env ∧
    ∀ n, Act.exitScript (some n) ∉ initGitBat env := by
  simp [initGitBat, h, batFailTail]

/-- C5 witness: the failure behaviour at the concrete status 1. -/
theorem bat_failure_pause_plain_return_witness :
    Act.pause ∈ initGitBat ⟨1, 0, 0⟩ ∧
    Act.exitScript none ∈ initGitBat ⟨1, 0, 0⟩ ∧
    ∀ n, Act.exitScript (some n) ∉ initGitBat ⟨1, 0, 0⟩ :=
  bat_failure_pause_plain_return ⟨1, 0, 0⟩ (by decide)

/-- C6: the script's behaviour depends only on the status of `git init`
— the statuses of `git add` and `git commit` are never consulted — and
when initialization succeeded the success message and follow-up
instructions are printed even if staging and commit both failed. -/
theorem bat_staging_commit_unchecked (e1 e2 : BatEnv)
    (h : e1.initErrorlevel = e2.initErrorlevel) :
    initGitBat e1 = initGitBat e2 ∧
    (e1.initErrorlevel = 0 →
      Act.echoMsg "Git repository initialized successfully!" ∈ initGitBat e1 ∧
      Act.echoMsg "Next steps:" ∈ initGitBat e1) := by
  constructor
  · simp [initGitBat, h]
  · intro h0
    simp [initGitBat, h0, batSuccessTail]

/-- C6 witness: an environment where staging and commit both fail
(statuses 1) behaves exactly like one where they succeed, and still
prints the success message and instructions. -/
theorem bat_staging_commit_unchecked_witness :
    initGitBat ⟨0, 1, 1⟩ = initGitBat ⟨0, 0, 0⟩ ∧
    (0 = 0 →
      Act.echoMsg "Git repository initialized successfully!" ∈ initGitBat ⟨0, 1, 1⟩ ∧
      Act.echoMsg "Next steps:" ∈ initGitBat ⟨0, 1, 1⟩) := by
  have h := bat_staging_commit_unchecked ⟨0, 1, 1⟩ ⟨0, 0, 0⟩ rfl
  exact ⟨h.1, fun _ => h.2 rfl⟩

/-- C7: on the success path the script performs, in strict order:
initialize, stage all files, commit with the fixed message, print the
follow-up instructions (placeholder remote URL, branch `main`), and
finally pause. -/
theorem bat_success_trace (env : BatEnv) (h : env.initErrorlevel = 0) :
    initGitBat env =
      [Act.echoOff,
       Act.echoMsg "Initializing Git Repository...",
       Act.gitInit,
       Act.echoMsg "Adding files...",
       Act.gitAdd,
       Act.gitCommit "Initial commit for Majima AI",
       Act.echoBlank,
       Act.echoMsg "Git repository initialized successfully!",
       Act.echoBlank,
       Act.echoMsg "Next steps:",
       Act.echoMsg "1. Create a new repository on GitHub.com",
       Act.echoMsg "2. Run the commands shown on GitHub, for example:",
       Act.echoMsg "   git remote add origin https://github.com/YOUR_USERNAME/YOUR_REPO_NAME.git",
       Act.echoMsg "   git branch -M main",
       Act.echoMsg "   git push -u origin main",
       Act.echoBlank,
       Act.pause] := by
  simp [initGitBat, h, batSuccessTail, commitMessage]

/-- C7 witness: the success trace at the all-zero status environment. -/
theorem bat_success_trace_witness :
    initGitBat ⟨0, 0, 0⟩ =
      [Act.echoOff,
       Act.echoMsg "Initializing Git Repository...",
       Act.gitInit,
       Act.echoMsg "Adding files...",
       Act.gitAdd,
       Act.gitCommit "Initial commit for Majima AI",
       Act.echoBlank,
       Act.echoMsg "Git repository initialized successfully!",
       Act.echoBlank,
       Act.echoMsg "Next steps:",
       Act.echoMsg "1. Create a new repository on GitHub.com",
       Act.echoMsg "2. Run the commands shown on GitHub, for example:",
       Act.echoMsg "   git remote add origin https://github.com/YOUR_USERNAME/YOUR_REPO_NAME.git",
       Act.echoMsg "   git branch -M main",
       Act.echoMsg "   git push -u origin main",
       Act.echoBlank,
       Act.pause] :=
  bat_success_trace ⟨0, 0, 0⟩ rfl

/-- C9: every commit the script performs uses exactly the message
"Initial commit for Majima AI", and on the success path such a commit
does occur. -/
theorem bat_commit_message_fixed (env : BatEnv) :
    (∀ m, Act.gitCommit m ∈ initGitBat env → m = "Initial commit for Majima AI") ∧
    (env.initErrorlevel = 0 →
      Act.gitCommit "Initial commit for Majima AI" ∈ initGitBat env) ∧
    commitMessage = "Initial commit for Majima AI" := by
  by_cases h : env.initErrorlevel = 0 <;>
    simp [initGitBat, h, batFailTail, batSuccessTail, commitMessage]

/-- C9 witness: the fixed-message properties at the all-zero status
environment, with the success-path hypothesis discharged. -/
theorem bat_commit_message_fixed_witness :
    (∀ m, Act.gitCommit m ∈ initGitBat ⟨0, 0, 0⟩ → m = "Initial commit for Majima AI") ∧
    Act.gitCommit "Initial commit for Majima AI" ∈ initGitBat ⟨0, 0, 0⟩ := by
  have h := bat_commit_message_fixed ⟨0, 0, 0⟩
  exact ⟨h.1, h.2.1 rfl⟩

end MajimaAI
